import Mathlib

/-!
Verification of the agent-rdp daemon core: shallow embedding of the RDPDR
drive backend, CLIPRDR clipboard backend, DVC automation channel, input
translators and the session actor loop, translated from the Rust sources in
`crates/agent-rdp-daemon/src`.
-/

namespace AgentRdp

/-- Lookup in an association list, mirroring `HashMap::get`. -/
def mfind {κ α : Type} [DecidableEq κ] (k : κ) : List (κ × α) → Option α
  | [] => none
  | (k', v) :: rest => if k' = k then some v else mfind k rest

/-- Remove every binding of a key, mirroring `HashMap::remove`. -/
def merase {κ α : Type} [DecidableEq κ] (k : κ) : List (κ × α) → List (κ × α)
  | [] => []
  | (k', v) :: rest => if k' = k then merase k rest else (k', v) :: merase k rest

/-- Insert/replace a binding, mirroring `HashMap::insert`. -/
def minsert {κ α : Type} [DecidableEq κ] (k : κ) (v : α) (m : List (κ × α)) :
    List (κ × α) :=
  (k, v) :: merase k m

/-! ### Path handling (`PathBuf` modelled as a `String`)

String processing is written structurally over the underlying character
list so that all definitions evaluate by kernel reduction. -/

/-- Embeds `.replace('\\', "/")` (single-character pattern and replacement). -/
def normalizeSlashes (s : String) : String :=
  ⟨s.data.map fun c => if c = '\\' then '/' else c⟩

/-- Embeds `.trim_start_matches('/')`. -/
def trimLeadingSlashes (s : String) : String :=
  ⟨s.data.dropWhile fun c => c = '/'⟩

/-- The defensive path normalisation applied by the drive backend. -/
def normalizeRdpPath (s : String) : String := trimLeadingSlashes (normalizeSlashes s)

/-- Embeds `base_path.join(rel)` for an already-normalised (hence relative) `rel`. -/
def joinPath (base rel : String) : String := base ++ "/" ++ rel

/-- Holds when `b` is a (lexical) path prefix of `p`. -/
def pathStartsWith (b p : String) : Prop := ∃ s : String, p = b ++ s

/-! ### RDPDR drive backend (`rdpdr/mod.rs`, `rdpdr/file_ops.rs`, `rdpdr/set_ops.rs`) -/

/-- NT status codes used by the drive backend. -/
inductive NtStatus where
  | SUCCESS
  | UNSUCCESSFUL
  | NO_SUCH_FILE
  | NOT_A_DIRECTORY
deriving DecidableEq, Repr

/-- Embeds `CreateDisposition` values handled by `create_drive`. -/
inductive CreateDisposition where
  | FILE_OPEN_IF
  | FILE_CREATE
  | FILE_SUPERSEDE
  | FILE_OPEN
  | FILE_OVERWRITE
  | FILE_OVERWRITE_IF
  | OTHER
deriving DecidableEq, Repr

/-- Embeds `Information` bits of a `DeviceCreateResponse`. -/
inductive Information where
  | FILE_SUPERSEDED
  | FILE_OPENED
  | FILE_OVERWRITTEN
  | emptyInfo
deriving DecidableEq, Repr

/-- Embeds `MultiDriveBackend` state of the `rdpdr/` module revision
(`rdpdr/mod.rs` lines 29–44).  This revision lives in the tree but is not
declared by `lib.rs` (which declares only `pub mod rdpdr_backend`); its
create / rename / write arms are line-for-line identical to the wired
revision, while `delete_on_close` exists only here — see `WiredBackend` for
the compiled revision's state.  The `File` handle is modelled as `Unit`
(`file_map` stores `Option Unit`, `none` marking a directory) and
`DirIterState` as `Unit`. -/
structure Backend where
  file_id : Nat
  drive_paths : List (Nat × String)
  file_map : List (Nat × Option Unit)
  file_path_map : List (Nat × String)
  file_device_map : List (Nat × Nat)
  file_dir_map : List (Nat × Unit)
  delete_on_close : List (Nat × Bool)
deriving DecidableEq, Repr

/-- Embeds `MultiDriveBackend::new` / `Default`. -/
def Backend.new : Backend :=
  ⟨0, [], [], [], [], [], []⟩

/-- Embeds `MultiDriveBackend::add_drive`. -/
def Backend.add_drive (b : Backend) (device_id : Nat) (path : String) : Backend :=
  { b with drive_paths := minsert device_id path b.drive_paths }

/-- Embeds `MultiDriveBackend::get_base_path`. -/
def Backend.get_base_path (b : Backend) (device_id : Nat) : Option String :=
  mfind device_id b.drive_paths

/-- Embeds `MultiDriveBackend::next_file_id`: returns the current counter and
increments it, with the wrapping semantics of a `u32`. -/
def Backend.next_file_id (b : Backend) : Nat × Backend :=
  (b.file_id, { b with file_id := (b.file_id + 1) % 2 ^ 32 })

/-- Embeds `MultiDriveBackend::insert_directory`. -/
def Backend.insert_directory (b : Backend) (file_id device_id : Nat)
    (path : String) : Backend :=
  { b with
    file_map := minsert file_id none b.file_map
    file_path_map := minsert file_id path b.file_path_map
    file_device_map := minsert file_id device_id b.file_device_map }

/-- Embeds `MultiDriveBackend::insert_file`. -/
def Backend.insert_file (b : Backend) (file_id device_id : Nat)
    (path : String) : Backend :=
  { b with
    file_map := minsert file_id (some ()) b.file_map
    file_path_map := minsert file_id path b.file_path_map
    file_device_map := minsert file_id device_id b.file_device_map }

/-! #### Model filesystem

The OS filesystem is modelled as an association list from absolute path to a
flag that is `true` for directories and `false` for plain files.  `fs::remove_file`
succeeds exactly on plain files; `fs::remove_dir` succeeds exactly on
directories with no child entry. -/

/-- Model filesystem: path ↦ is-directory. -/
def Fs : Type := List (String × Bool)

instance : DecidableEq Fs :=
  inferInstanceAs (DecidableEq (List (String × Bool)))

/-- A path exists in the model filesystem. -/
def Fs.exists (fs : Fs) (p : String) : Prop := (mfind p fs).isSome

/-- Some entry of `fs` lives strictly below `p`. -/
def Fs.hasChild (fs : Fs) (p : String) : Bool :=
  (fs : List (String × Bool)).any fun e => List.isPrefixOf (p ++ "/").data e.1.data

/-- Embeds `fs::remove_file`: succeeds iff `p` is a plain file. -/
def Fs.removeFile (fs : Fs) (p : String) : Option Fs :=
  match mfind p fs with
  | some false => some (merase p fs)
  | _ => none

/-- Embeds `fs::remove_dir`: succeeds iff `p` is a directory without children. -/
def Fs.removeDir (fs : Fs) (p : String) : Option Fs :=
  match mfind p fs with
  | some true => if fs.hasChild p then none else some (merase p fs)
  | _ => none

/-- Embeds `fs::rename(src, dst)`: `osOk` injects failures whose cause lies outside
the model (permissions, cross-device, destination conflicts); a missing
source always fails. -/
def Fs.rename (fs : Fs) (src dst : String) (osOk : Bool) : Option Fs :=
  if osOk then
    match mfind src fs with
    | some isDir => some (minsert dst isDir (merase src fs))
    | none => none
  else none

/-! #### `set_information` (`rdpdr/set_ops.rs`) -/

/-- The `FileInformationClass` buffer variants handled by `set_information`. -/
inductive SetBuffer where
  | rename (file_name : String)
  | allocation
  | disposition (delete_pending : Nat)
  | endOfFile (end_of_file : Nat)
  | other
deriving DecidableEq, Repr

/-- Embeds `ServerDriveSetInformationRequest` fields used by the handler. -/
structure SetInfoReq where
  device_id : Nat
  file_id : Nat
  set_buffer : SetBuffer
deriving DecidableEq, Repr

/-- Oracle for OS outcomes that `set_information` depends on. -/
structure SetOracle where
  renameOsOk : Bool
  setLenOk : Bool
deriving DecidableEq, Repr

/-- Embeds `set_information` of the unwired `rdpdr/` revision
(`rdpdr/set_ops.rs` lines 14–144), with the OS filesystem threaded
explicitly.  Its Rename / Allocation / EndOfFile / unknown-file arms are
identical to the wired `rdpdr_backend.rs` revision (lines 525–640); the two
revisions differ only in the Disposition arm — see `set_information_wired`.
Returns the new backend state, the new filesystem and the NT status of the
`ClientDriveSetInformationResponse`. -/
def set_information (b : Backend) (fs : Fs) (req : SetInfoReq)
    (orc : SetOracle) : Backend × Fs × NtStatus :=
  match mfind req.file_id b.file_path_map with
  | some file_path =>
    match req.set_buffer with
    | .rename info =>
      match b.get_base_path req.device_id with
      | none => (b, fs, .UNSUCCESSFUL)
      | some base_path =>
        let new_path := normalizeRdpPath info
        let toPath := joinPath base_path new_path
        match fs.rename file_path toPath orc.renameOsOk with
        | none => (b, fs, .UNSUCCESSFUL)
        | some fs' =>
          ({ b with file_path_map := minsert req.file_id toPath b.file_path_map },
            fs', .SUCCESS)
    | .allocation => (b, fs, .SUCCESS)
    | .disposition info =>
      let should_delete := info ≠ 0
      if should_delete then
        ({ b with delete_on_close := minsert req.file_id true b.delete_on_close },
          fs, .SUCCESS)
      else
        ({ b with delete_on_close := merase req.file_id b.delete_on_close },
          fs, .SUCCESS)
    | .endOfFile _ =>
      match mfind req.file_id b.file_map with
      | some (some _) =>
        if orc.setLenOk then (b, fs, .SUCCESS) else (b, fs, .UNSUCCESSFUL)
      | _ => (b, fs, .NO_SUCH_FILE)
    | .other => (b, fs, .SUCCESS)
  | none => (b, fs, .NO_SUCH_FILE)

/-! #### `close_device` (`rdpdr/file_ops.rs` lines 118–161) -/

/-- Embeds `close_device` of the unwired `rdpdr/` revision
(`rdpdr/file_ops.rs` lines 118–161): sync is a no-op in the model; the
delete-on-close flag is consumed, all maps are cleared for the file id, and
if the flag was set the bound path is removed (`remove_file`, falling back
to `remove_dir`).  The wired revision's close (`close_device_wired`) only
clears the maps. -/
def close_device (b : Backend) (fs : Fs) (file_id : Nat) :
    Backend × Fs × NtStatus :=
  let should_delete := (mfind file_id b.delete_on_close).getD false
  let b1 := { b with delete_on_close := merase file_id b.delete_on_close }
  let file_path := mfind file_id b1.file_path_map
  let b2 := { b1 with
    file_map := merase file_id b1.file_map
    file_path_map := merase file_id b1.file_path_map
    file_device_map := merase file_id b1.file_device_map
    file_dir_map := merase file_id b1.file_dir_map }
  let fs' :=
    if should_delete then
      match file_path with
      | some path =>
        match fs.removeFile path with
        | some fs2 => fs2
        | none =>
          match fs.removeDir path with
          | some fs2 => fs2
          | none => fs
      | none => fs
    else fs
  (b2, fs', .SUCCESS)

/-! #### The wired backend revision (`rdpdr_backend.rs`)

`lib.rs` declares only `pub mod rdpdr_backend`, so the monolithic
`rdpdr_backend.rs` is the revision the crate compiles.  Its `create_drive`,
`write_device`, `process_dependent_file` and the Rename / Allocation /
EndOfFile arms of `set_information` are line-for-line identical to the
`rdpdr/` module embedded above; it differs in having no `delete_on_close`
state, in deleting immediately inside the Disposition arm, and in a
`close_device` that never touches the disk. -/

/-- Embeds `MultiDriveBackend` of the wired revision
(`rdpdr_backend.rs` lines 21–34): same maps, but no `delete_on_close`. -/
structure WiredBackend where
  file_id : Nat
  drive_paths : List (Nat × String)
  file_map : List (Nat × Option Unit)
  file_path_map : List (Nat × String)
  file_device_map : List (Nat × Nat)
  file_dir_map : List (Nat × Unit)
deriving DecidableEq, Repr

/-- Embeds `MultiDriveBackend::get_base_path` of the wired revision
(`rdpdr_backend.rs` lines 59–61). -/
def WiredBackend.get_base_path (b : WiredBackend) (device_id : Nat) :
    Option String :=
  mfind device_id b.drive_paths

/-- Embeds `set_information` of the wired revision (`rdpdr_backend.rs`
lines 524–651).  The Disposition arm (lines 586–595) calls
`fs::remove_file(file_path)` at once — the `delete_pending` value is never
read (`Disposition(_)`), so a clear request deletes too; a removal error
replies `UNSUCCESSFUL`.  All other arms are identical to the `rdpdr/`
revision. -/
def set_information_wired (b : WiredBackend) (fs : Fs) (req : SetInfoReq)
    (orc : SetOracle) : WiredBackend × Fs × NtStatus :=
  match mfind req.file_id b.file_path_map with
  | some file_path =>
    match req.set_buffer with
    | .rename info =>
      match b.get_base_path req.device_id with
      | none => (b, fs, .UNSUCCESSFUL)
      | some base_path =>
        let new_path := normalizeRdpPath info
        let toPath := joinPath base_path new_path
        match fs.rename file_path toPath orc.renameOsOk with
        | none => (b, fs, .UNSUCCESSFUL)
        | some fs' =>
          ({ b with file_path_map := minsert req.file_id toPath b.file_path_map },
            fs', .SUCCESS)
    | .allocation => (b, fs, .SUCCESS)
    | .disposition _ =>
      match fs.removeFile file_path with
      | some fs' => (b, fs', .SUCCESS)
      | none => (b, fs, .UNSUCCESSFUL)
    | .endOfFile _ =>
      match mfind req.file_id b.file_map with
      | some (some _) =>
        if orc.setLenOk then (b, fs, .SUCCESS) else (b, fs, .UNSUCCESSFUL)
      | _ => (b, fs, .NO_SUCH_FILE)
    | .other => (b, fs, .SUCCESS)
  | none => (b, fs, .NO_SUCH_FILE)

/-- Embeds `close_device` of the wired revision (`rdpdr_backend.rs` lines
227–239): the four map entries are removed and `SUCCESS` is returned — no
sync, no flag lookup, and nothing is ever removed from disk. -/
def close_device_wired (b : WiredBackend) (fs : Fs) (file_id : Nat) :
    WiredBackend × Fs × NtStatus :=
  ({ b with
      file_map := merase file_id b.file_map
      file_path_map := merase file_id b.file_path_map
      file_device_map := merase file_id b.file_device_map
      file_dir_map := merase file_id b.file_dir_map },
    fs, .SUCCESS)

/-! #### `create_drive` (`rdpdr/file_ops.rs` lines 164–360) -/

/-- Embeds `DeviceCreateRequest` fields used by the handler; the two relevant
`CreateOptions` bits are broken out. -/
structure CreateReq where
  device_id : Nat
  path : String
  create_disposition : CreateDisposition
  opt_directory_file : Bool
  opt_non_directory_file : Bool
deriving DecidableEq, Repr

/-- Outcome of `fs::metadata(&path)` at create time. -/
inductive MetaResult where
  | dir
  | file
  | err
deriving DecidableEq, Repr

/-- Oracle for the OS outcomes `create_drive` depends on. -/
structure CreateOracle where
  meta : MetaResult
  createDirOk : Bool
  openOk : Bool
deriving DecidableEq, Repr

/-- Result of a create: new backend state and the `DeviceCreateResponse`
fields. -/
structure CreateResult where
  backend : Backend
  status : NtStatus
  file_id : Nat
  information : Information
deriving DecidableEq, Repr

/-- Embeds `make_create_drive_resp`'s `information` computation. -/
def informationFor : CreateDisposition → Information
  | .FILE_CREATE | .FILE_SUPERSEDE | .FILE_OPEN | .FILE_OVERWRITE =>
    .FILE_SUPERSEDED
  | .FILE_OPEN_IF => .FILE_OPENED
  | .FILE_OVERWRITE_IF => .FILE_OVERWRITTEN
  | .OTHER => .emptyInfo

/-- Embeds `create_drive`: the file id is consumed first on every path; the request
path is normalised and joined under the device base (an empty normalised
path binds the base itself); directory/file handling follows the metadata
outcome and the two create-options bits; entries are registered in the maps
only on the success paths. -/
def create_drive (b : Backend) (req : CreateReq) (orc : CreateOracle) :
    CreateResult :=
  let (fid, b0) := b.next_file_id
  match b0.get_base_path req.device_id with
  | none => ⟨b0, .UNSUCCESSFUL, fid, .emptyInfo⟩
  | some base_path =>
    let req_path := normalizeRdpPath req.path
    let path := if req_path = "" then base_path else joinPath base_path req_path
    let openFile : CreateResult :=
      if orc.openOk then
        ⟨b0.insert_file fid req.device_id path, .SUCCESS, fid,
          informationFor req.create_disposition⟩
      else ⟨b0, .UNSUCCESSFUL, fid, .emptyInfo⟩
    match orc.meta with
    | .dir =>
      if req.create_disposition = .FILE_CREATE then
        ⟨b0, .UNSUCCESSFUL, fid, .emptyInfo⟩
      else if req.opt_non_directory_file then
        ⟨b0, .UNSUCCESSFUL, fid, .emptyInfo⟩
      else
        ⟨b0.insert_directory fid req.device_id path, .SUCCESS, fid,
          informationFor req.create_disposition⟩
    | .file =>
      if req.opt_directory_file then ⟨b0, .NOT_A_DIRECTORY, fid, .emptyInfo⟩
      else openFile
    | .err =>
      if req.opt_directory_file then
        if (req.create_disposition = .FILE_CREATE ∨
            req.create_disposition = .FILE_OPEN_IF) ∧ orc.createDirOk then
          ⟨b0.insert_directory fid req.device_id path, .SUCCESS, fid,
            informationFor req.create_disposition⟩
        else ⟨b0, .UNSUCCESSFUL, fid, .emptyInfo⟩
      else openFile

/-! #### `write_device` (`rdpdr/file_ops.rs` lines 15–70, 363–373) -/

/-- Outcome of `write_inner` (seek + write + flush) on the open handle. -/
inductive WriteOutcome where
  | ok (length : Nat)
  | ioErr
deriving DecidableEq, Repr

/-- Embeds `write_device` through `process_dependent_file`: an open file handle runs
the write; an unknown `file_id` or a directory handle (`Some(None)`) takes
the error arm.  Returns the NT status and `length` field of the
`DeviceWriteResponse`. -/
def write_device (b : Backend) (file_id : Nat) (write_data_len : Nat)
    (w : WriteOutcome) : NtStatus × Nat :=
  match mfind file_id b.file_map with
  | some (some _) =>
    match w with
    | .ok length =>
      if length = write_data_len then (.SUCCESS, write_data_len)
      else (.UNSUCCESSFUL, 0)
    | .ioErr => (.UNSUCCESSFUL, 0)
  | _ => (.NO_SUCH_FILE, 0)

/-! ### CLIPRDR clipboard backend (`rdp_session/clipboard.rs`)

Remote text is modelled as its list of UTF-16 code units (`List Nat`), so
`String::from_utf16_lossy` becomes the identity on code units and
`trim_end_matches('\0')` becomes dropping trailing zero units. -/

/-- The part of `ClipboardState` that `on_format_data_response` touches:
whether a `pending_get` reply slot is installed, and the cached
`remote_text`. -/
structure ClipState where
  remote_text : Option (List Nat)
  pending : Bool
deriving DecidableEq, Repr

/-- Embeds `u16::from_le_bytes([b0, b1])`. -/
def u16le (b0 b1 : Nat) : Nat := b0 % 256 + 256 * (b1 % 256)

/-- Embeds `chunks_exact(2)`: consecutive byte pairs, any trailing odd byte dropped. -/
def chunksExact2 : List Nat → List (Nat × Nat)
  | b0 :: b1 :: rest => (b0, b1) :: chunksExact2 rest
  | _ => []

/-- Decode a byte payload as UTF-16 LE code units. -/
def decodeUtf16le (data : List Nat) : List Nat :=
  (chunksExact2 data).map fun p => u16le p.1 p.2

/-- Embeds `trim_end_matches('\0')` on the code-unit model: drop trailing NULs. -/
def trimTrailingNuls (l : List Nat) : List Nat :=
  (l.reverse.dropWhile (fun c => c = 0)).reverse

/-- Embeds `on_format_data_response` (`rdp_session/clipboard.rs` lines 171–206).
Returns the new state together with what was sent through the consumed
`pending_get` one-shot (`none` if no slot was installed; `some v` means
`Ok(v)` was delivered). -/
def on_format_data_response (st : ClipState) (is_error : Bool)
    (data : List Nat) : ClipState × Option (Option (List Nat)) :=
  if is_error then
    ({ st with pending := false }, if st.pending then some none else none)
  else if 2 ≤ data.length then
    let text := trimTrailingNuls (decodeUtf16le data)
    (⟨some text, false⟩, if st.pending then some (some text) else none)
  else
    ({ st with pending := false }, if st.pending then some none else none)

/-! ### Clipboard request handler (`handlers/clipboard.rs` lines 26–32) -/

/-- Daemon error codes relevant to the clipboard handler. -/
inductive ErrCode where
  | notConnected
  | invalidRequest
  | clipboardError
  | internalError
deriving DecidableEq, Repr

/-- Structured reply of a clipboard `get`. -/
inductive ClipReply where
  | successText (text : List Nat)
  | errorReply (code : ErrCode) (message : String)
deriving DecidableEq, Repr

/-- Embeds `ClipboardRequest::GetText` arm of `handle`: maps the session's
`clipboard_get` result to the IPC response. -/
def clipboard_get_handle (r : Except String (Option (List Nat))) : ClipReply :=
  match r with
  | .ok (some text) => .successText text
  | .ok none => .successText []
  | .error e => .errorReply .clipboardError e

/-! ### DVC automation channel (`automation/dvc_channel.rs`, `automation/dvc_ipc.rs`)

One-shot senders are modelled as opaque tokens (`Nat`); a delivery is the
pair (token, response sent through it). -/

/-- Embeds `DvcResponse` delivered through a pending one-shot. -/
structure DvcResp where
  success : Bool
  data : Option Unit
  errCode : Option String
  errMessage : Option String
deriving DecidableEq, Repr

/-- Embeds `DvcSharedState` (`automation/dvc_channel.rs` lines 83–92). -/
structure DvcState where
  pending : List (String × Nat)
  handshake : Option Unit
  channel_id : Option Nat
  command_tx : Bool
deriving DecidableEq, Repr

/-- The `Response` arm of `AutomationDvc::process`: consume the pending entry
for `id` (if any) and deliver the response through it. -/
def dvc_process_response (st : DvcState) (id : String) (resp : DvcResp) :
    DvcState × Option (Nat × DvcResp) :=
  match mfind id st.pending with
  | some tok => ({ st with pending := merase id st.pending }, some (tok, resp))
  | none => (st, none)

/-- The failure response delivered to drained entries on close. -/
def channelClosedResp : DvcResp :=
  ⟨false, none, some "channel_closed", some "DVC channel was closed"⟩

/-- Embeds `AutomationDvc::close` (`automation/dvc_channel.rs` lines 270–289): drop
channel id and handshake, drain every pending entry with a `channel_closed`
failure. -/
def dvc_close (st : DvcState) : DvcState × List (Nat × DvcResp) :=
  ({ st with channel_id := none, handshake := none, pending := [] },
    st.pending.map fun e => (e.2, channelClosedResp))

/-- How the wait on the one-shot in `send_request` resolves. -/
inductive SendOutcome where
  | response (resp : DvcResp)
  | timeout
  | channelClosed
deriving DecidableEq, Repr

/-- Embeds `DvcIpc::send_request` (`automation/dvc_ipc.rs` lines 94–202), modelled
around the registration of the pending entry and its resolution.  `none`
means the call failed before registering (channel not open or no command
sender).  Otherwise the entry for `request_id` (one-shot token `tok`) is
installed and then resolved by `outcome`: a matching inbound response
consumes it, a timeout removes it explicitly, or a channel close drains it.
Returns the final shared state and every delivery made through a one-shot. -/
def send_request (st : DvcState) (request_id : String) (tok : Nat)
    (outcome : SendOutcome) : Option (DvcState × List (Nat × DvcResp)) :=
  match st.channel_id with
  | none => none
  | some _ =>
    if st.command_tx then
      let st1 := { st with pending := minsert request_id tok st.pending }
      match outcome with
      | .response resp =>
        let (st2, sent) := dvc_process_response st1 request_id resp
        some (st2, sent.toList)
      | .timeout =>
        some ({ st1 with pending := merase request_id st1.pending }, [])
      | .channelClosed => some (dvc_close st1)
    else none

/-! ### Scroll handler (`handlers/scroll.rs`) -/

/-- Embeds `ScrollDirection` (protocol crate). -/
inductive ScrollDirection where
  | up
  | down
  | left
  | right
deriving DecidableEq, Repr

/-- The three `PointerFlags` bits a wheel event can carry. -/
structure WheelFlags where
  vertical : Bool
  horizontal : Bool
  negative : Bool
deriving DecidableEq, Repr

/-- One `FastPathInputEvent::MouseEvent` wheel event. -/
structure WheelEvent where
  flags : WheelFlags
  number_of_wheel_rotation_units : Int
  x : Nat
  y : Nat
deriving DecidableEq, Repr

/-- Embeds `create_vertical_scroll_events` (`handlers/scroll.rs` lines 46–77). -/
def create_vertical_scroll_events (x y : Nat) (dir : ScrollDirection)
    (amount : Nat) : List WheelEvent :=
  let wheel_units : Int :=
    match dir with
    | .up => 120
    | .down => -120
    | _ => 0
  List.replicate amount
    { flags := ⟨true, false, decide (wheel_units < 0)⟩
      number_of_wheel_rotation_units := wheel_units
      x := x, y := y }

/-- Embeds `create_horizontal_scroll_events` (`handlers/scroll.rs` lines 79–110). -/
def create_horizontal_scroll_events (x y : Nat) (dir : ScrollDirection)
    (amount : Nat) : List WheelEvent :=
  let wheel_units : Int :=
    match dir with
    | .right => 120
    | .left => -120
    | _ => 0
  List.replicate amount
    { flags := ⟨false, true, decide (wheel_units < 0)⟩
      number_of_wheel_rotation_units := wheel_units
      x := x, y := y }

/-- The dispatch in `handle` (`handlers/scroll.rs` lines 30–37). -/
def scroll_events (x y : Nat) (dir : ScrollDirection) (amount : Nat) :
    List WheelEvent :=
  match dir with
  | .up | .down => create_vertical_scroll_events x y dir amount
  | .left | .right => create_horizontal_scroll_events x y dir amount

/-! ### Session actor loop (`rdp_session.rs`, `run_frame_processor`)

The `tokio::select!` loop is modelled over a serialized trace of the events
the three sources can fire.  The `Bool` result records whether the
disconnect-notify port was signalled (taking into account whether a port was
attached at all). -/

/-- Events the frame processor loop can observe in one iteration. -/
inductive SessionEvent where
  | cmdSendInput
  | cmdClipboardSet
  | cmdClipboardGet
  | cmdShutdown
  | cmdChannelClosed
  | pduOk (terminate : Bool)
  | pduReadErr
  | backendMsg
deriving DecidableEq, Repr

/-- Why the loop exited. -/
inductive ExitKind where
  | shutdown
  | commandClosed
  | readError
  | terminated
deriving DecidableEq, Repr

/-- Embeds `run_frame_processor` (`rdp_session.rs` lines 436–682) over an event
trace: `Shutdown` sets `graceful_shutdown` and breaks; a closed command
channel or a PDU read error breaks with the flag still false; a `Terminate`
output signals the port and returns from inside the loop; after the loop the
port is signalled only when the exit was not graceful.  Returns `none` when
the trace ends with the loop still running. -/
def run_frame_processor (hasPort : Bool) :
    List SessionEvent → Option (ExitKind × Bool)
  | [] => none
  | e :: rest =>
    match e with
    | .cmdShutdown => some (.shutdown, false)
    | .cmdChannelClosed => some (.commandClosed, hasPort)
    | .pduReadErr => some (.readError, hasPort)
    | .pduOk true => some (.terminated, hasPort)
    | .pduOk false => run_frame_processor hasPort rest
    | .cmdSendInput => run_frame_processor hasPort rest
    | .cmdClipboardSet => run_frame_processor hasPort rest
    | .cmdClipboardGet => run_frame_processor hasPort rest
    | .backendMsg => run_frame_processor hasPort rest

/-! ### Keyboard handler (`handlers/keyboard.rs`) -/

/-- Embeds `KeyInfo`: scancode plus extended flag. -/
structure KeyInfo where
  scancode : Nat
  extended : Bool
deriving DecidableEq, Repr

/-- One `FastPathInputEvent::KeyboardEvent`. -/
structure KeyEvent where
  release : Bool
  extended : Bool
  scancode : Nat
deriving DecidableEq, Repr

/-- ASCII lowercasing of a string, modelling `str::to_lowercase` on the
(ASCII) key names involved. -/
def strToLower (s : String) : String := ⟨s.data.map Char.toLower⟩

/-- Embeds `str::trim`: strip leading and trailing whitespace. -/
def strTrim (s : String) : String :=
  ⟨((s.data.dropWhile Char.isWhitespace).reverse.dropWhile
      Char.isWhitespace).reverse⟩

/-- Embeds `str::split(sep)`: split on a single-character separator; the empty
string yields one empty part. -/
def splitOnCharAux (sep : Char) : List Char → List Char → List String
  | [], acc => [⟨acc.reverse⟩]
  | c :: rest, acc =>
    if c = sep then String.mk acc.reverse :: splitOnCharAux sep rest []
    else splitOnCharAux sep rest (c :: acc)

/-- Embeds `keys.split('+')`. -/
def splitOnChar (sep : Char) (s : String) : List String :=
  splitOnCharAux sep s.data []

/-- The single-quote key name (written via its code point). -/
def quoteKeyName : String := ⟨[Char.ofNat 39]⟩

/-- The key map array of `key_to_scancode` (`handlers/keyboard.rs` lines
191–323): key name ↦ `(scancode, needs_extended_flag)`. -/
def scancodeTable : List (String × Nat × Bool) :=
  [("ctrl", (0x1D, false)),
   ("control", (0x1D, false)),
   ("lctrl", (0x1D, false)),
   ("rctrl", (0x1D, true)),
   ("alt", (0x38, false)),
   ("lalt", (0x38, false)),
   ("ralt", (0x38, true)),
   ("shift", (0x2A, false)),
   ("lshift", (0x2A, false)),
   ("rshift", (0x36, false)),
   ("win", (0x5B, true)),
   ("windows", (0x5B, true)),
   ("lwin", (0x5B, true)),
   ("rwin", (0x5C, true)),
   ("super", (0x5B, true)),
   ("meta", (0x5B, true)),
   ("esc", (0x01, false)),
   ("escape", (0x01, false)),
   ("f1", (0x3B, false)),
   ("f2", (0x3C, false)),
   ("f3", (0x3D, false)),
   ("f4", (0x3E, false)),
   ("f5", (0x3F, false)),
   ("f6", (0x40, false)),
   ("f7", (0x41, false)),
   ("f8", (0x42, false)),
   ("f9", (0x43, false)),
   ("f10", (0x44, false)),
   ("f11", (0x57, false)),
   ("f12", (0x58, false)),
   ("tab", (0x0F, false)),
   ("enter", (0x1C, false)),
   ("return", (0x1C, false)),
   ("backspace", (0x0E, false)),
   ("space", (0x39, false)),
   ("capslock", (0x3A, false)),
   ("caps", (0x3A, false)),
   ("up", (0x48, true)),
   ("down", (0x50, true)),
   ("left", (0x4B, true)),
   ("right", (0x4D, true)),
   ("insert", (0x52, true)),
   ("delete", (0x53, true)),
   ("home", (0x47, true)),
   ("end", (0x4F, true)),
   ("pageup", (0x49, true)),
   ("pgup", (0x49, true)),
   ("pagedown", (0x51, true)),
   ("pgdn", (0x51, true)),
   ("printscreen", (0x37, true)),
   ("prtsc", (0x37, true)),
   ("scrolllock", (0x46, false)),
   ("pause", (0x45, false)),
   ("break", (0x45, false)),
   ("1", (0x02, false)),
   ("2", (0x03, false)),
   ("3", (0x04, false)),
   ("4", (0x05, false)),
   ("5", (0x06, false)),
   ("6", (0x07, false)),
   ("7", (0x08, false)),
   ("8", (0x09, false)),
   ("9", (0x0A, false)),
   ("0", (0x0B, false)),
   ("a", (0x1E, false)),
   ("b", (0x30, false)),
   ("c", (0x2E, false)),
   ("d", (0x20, false)),
   ("e", (0x12, false)),
   ("f", (0x21, false)),
   ("g", (0x22, false)),
   ("h", (0x23, false)),
   ("i", (0x17, false)),
   ("j", (0x24, false)),
   ("k", (0x25, false)),
   ("l", (0x26, false)),
   ("m", (0x32, false)),
   ("n", (0x31, false)),
   ("o", (0x18, false)),
   ("p", (0x19, false)),
   ("q", (0x10, false)),
   ("r", (0x13, false)),
   ("s", (0x1F, false)),
   ("t", (0x14, false)),
   ("u", (0x16, false)),
   ("v", (0x2F, false)),
   ("w", (0x11, false)),
   ("x", (0x2D, false)),
   ("y", (0x15, false)),
   ("z", (0x2C, false)),
   ("minus", (0x0C, false)),
   ("-", (0x0C, false)),
   ("equals", (0x0D, false)),
   ("=", (0x0D, false)),
   ("leftbracket", (0x1A, false)),
   ("[", (0x1A, false)),
   ("rightbracket", (0x1B, false)),
   ("]", (0x1B, false)),
   ("backslash", (0x2B, false)),
   ("\\", (0x2B, false)),
   ("semicolon", (0x27, false)),
   (";", (0x27, false)),
   ("quote", (0x28, false)),
   (quoteKeyName, (0x28, false)),
   ("grave", (0x29, false)),
   ("`", (0x29, false)),
   ("comma", (0x33, false)),
   (",", (0x33, false)),
   ("period", (0x34, false)),
   (".", (0x34, false)),
   ("slash", (0x35, false)),
   ("/", (0x35, false))]

/-- Embeds `key_to_scancode` (`handlers/keyboard.rs` lines 187–326): lowercase the
key name and look it up in the fixed US-layout table. -/
def key_to_scancode (key : String) : Option (Nat × Bool) :=
  mfind (strToLower key) scancodeTable

/-- The loop body of `parse_key_combination`: first unknown token aborts. -/
def parse_parts : List String → Except String (List KeyInfo)
  | [] => .ok []
  | key :: rest =>
    match key_to_scancode key with
    | none => .error ("Unknown key: " ++ key)
    | some (sc, ext) =>
      match parse_parts rest with
      | .error e => .error e
      | .ok infos => .ok (⟨sc, ext⟩ :: infos)

/-- Embeds `parse_key_combination` (`handlers/keyboard.rs` lines 166–178). -/
def parse_key_combination (keys : String) : Except String (List KeyInfo) :=
  parse_parts ((splitOnChar '+' keys).map fun s => strToLower (strTrim s))

/-- Embeds `create_key_event_ext` (`handlers/keyboard.rs` lines 329–338). -/
def create_key_event_ext (scancode : Nat) (extended release : Bool) : KeyEvent :=
  ⟨release, extended, scancode⟩

/-- Outcome of the `Press` arm of the keyboard handler. -/
inductive PressOutcome where
  | invalidRequest (message : String)
  | events (sent : List KeyEvent)
deriving DecidableEq, Repr

/-- Embeds `KeyboardRequest::Press` arm of `handle` (`handlers/keyboard.rs` lines
53–116): parse first — a parse error replies `invalid_request` before any
event is sent; otherwise press all keys in order then release in reverse. -/
def handle_press (keys : String) : PressOutcome :=
  match parse_key_combination keys with
  | .error e => .invalidRequest e
  | .ok infos =>
    .events
      ((infos.map fun i => create_key_event_ext i.scancode i.extended false) ++
        (infos.reverse.map fun i => create_key_event_ext i.scancode i.extended true))

/-- First token of a part list that the scancode table does not know. -/
def firstUnknownKey : List String → Option String
  | [] => none
  | key :: rest =>
    match key_to_scancode key with
    | none => some key
    | some _ => firstUnknownKey rest

/-! ### Create traces (for the file-id freshness invariant) -/

/-- Run a sequence of `ServerCreateDriveRequest`s.  Returns the final backend,
the file id consumed by (and carried in the response of) each create, and the
keys inserted into `file_map` / `file_path_map` / `file_device_map` (exactly
the ids of the successful creates). -/
def runCreates (b : Backend) :
    List (CreateReq × CreateOracle) → Backend × List Nat × List Nat
  | [] => (b, [], [])
  | (req, orc) :: rest =>
    let r := create_drive b req orc
    let rest' := runCreates r.backend rest
    (rest'.1, r.file_id :: rest'.2.1,
      (if r.status = .SUCCESS then [r.file_id] else []) ++ rest'.2.2)

/-!
## Theorems

Helper lemmas on the map model, then one theorem per specification claim.
-/

theorem mfind_minsert_self {κ α : Type} [DecidableEq κ] (k : κ) (v : α)
    (m : List (κ × α)) : mfind k (minsert k v m) = some v := by
  simp [minsert, mfind]

theorem mfind_merase_self {κ α : Type} [DecidableEq κ] (k : κ)
    (m : List (κ × α)) : mfind k (merase k m) = none := by
  induction m with
  | nil => simp [merase, mfind]
  | cons hd tl ih =>
    by_cases h : hd.1 = k
    · simpa [merase, h] using ih
    · simpa [merase, mfind, h] using ih

theorem mfind_merase_ne {κ α : Type} [DecidableEq κ] {k k' : κ} (h : k' ≠ k)
    (m : List (κ × α)) : mfind k' (merase k m) = mfind k' m := by
  induction m with
  | nil => simp [merase]
  | cons hd tl ih =>
    obtain ⟨a, v⟩ := hd
    by_cases hh : a = k
    · subst hh
      rw [show merase a ((a, v) :: tl) = merase a tl from by simp [merase]]
      rw [ih]
      simp only [mfind]
      rw [if_neg (fun e : a = k' => h e.symm)]
    · simp only [merase, if_neg hh, mfind]
      split <;> simp [ih]

theorem mfind_minsert_ne {κ α : Type} [DecidableEq κ] {k k' : κ} (h : k' ≠ k)
    (v : α) (m : List (κ × α)) : mfind k' (minsert k v m) = mfind k' m := by
  simp only [minsert, mfind, if_neg (fun e : k = k' => h e.symm)]
  exact mfind_merase_ne h m

theorem pathStartsWith_joinPath (b r : String) : pathStartsWith b (joinPath b r) :=
  ⟨"/" ++ r, by simp [joinPath, String.append_assoc]⟩

theorem pathStartsWith_refl (b : String) : pathStartsWith b b :=
  ⟨"", by simp⟩

/-- C7: every scroll request of amount `n` emits exactly `n` wheel events;
each event has wheel-rotation magnitude 120, the vertical-wheel flag for
up/down, the horizontal-wheel flag for left/right, and the wheel-negative
flag exactly for down/left; amount 0 emits no events. -/
theorem C7_scroll_events (x y : Nat) (dir : ScrollDirection) (amount : Nat) :
    (scroll_events x y dir amount).length = amount ∧
    scroll_events x y dir 0 = [] ∧
    ∀ e ∈ scroll_events x y dir amount,
      e.number_of_wheel_rotation_units.natAbs = 120 ∧
      (e.flags.vertical = true ↔ (dir = .up ∨ dir = .down)) ∧
      (e.flags.horizontal = true ↔ (dir = .left ∨ dir = .right)) ∧
      (e.flags.negative = true ↔ (dir = .down ∨ dir = .left)) := by
  cases dir <;>
    refine ⟨by simp [scroll_events, create_vertical_scroll_events,
        create_horizontal_scroll_events],
      by simp [scroll_events, create_vertical_scroll_events,
        create_horizontal_scroll_events],
      fun e he => ?_⟩ <;>
    · simp only [scroll_events, create_vertical_scroll_events,
        create_horizontal_scroll_events, List.mem_replicate] at he
      obtain ⟨-, rfl⟩ := he
      refine ⟨rfl, by simp, by simp, by simp⟩

/-- Witness for C7 at a concrete input. -/
theorem C7_scroll_events_witness :
    ((⟨⟨true, false, true⟩, -120, 1, 2⟩ : WheelEvent) ∈
        scroll_events 1 2 ScrollDirection.down 3) ∧
    ((⟨⟨true, false, true⟩, -120, 1, 2⟩ : WheelEvent).flags.negative = true ↔
      (ScrollDirection.down = .down ∨ ScrollDirection.down = .left)) :=
  ⟨by decide,
    ((C7_scroll_events 1 2 .down 3).2.2 _ (by decide)).2.2.2⟩

/-- C5: a write on an open file handle answers `SUCCESS` with the full
request byte count exactly when the OS write wrote all bytes; a partial
write or an I/O error answers `UNSUCCESSFUL` with length 0; a directory
handle or an unknown file id answers `NO_SUCH_FILE` with length 0. -/
theorem C5_write_device (b : Backend) (fid len : Nat) (w : WriteOutcome) :
    (mfind fid b.file_map = some (some ()) →
      (write_device b fid len w = (.SUCCESS, len) ↔ w = .ok len) ∧
      (∀ n, w = .ok n → n ≠ len → write_device b fid len w = (.UNSUCCESSFUL, 0)) ∧
      (w = .ioErr → write_device b fid len w = (.UNSUCCESSFUL, 0))) ∧
    (mfind fid b.file_map = some none ∨ mfind fid b.file_map = none →
      write_device b fid len w = (.NO_SUCH_FILE, 0)) := by
  constructor
  · intro hfile
    refine ⟨?_, ?_, ?_⟩
    · cases w with
      | ok n =>
        by_cases hn : n = len
        · subst hn; simp [write_device, hfile]
        · simp [write_device, hfile, hn]
      | ioErr => simp [write_device, hfile]
    · rintro n rfl hn
      simp [write_device, hfile, hn]
    · rintro rfl
      simp [write_device, hfile]
  · rintro (hdir | hnone)
    · simp [write_device, hdir]
    · simp [write_device, hnone]

/-- Witness for C5 at a concrete backend. -/
theorem C5_write_device_witness :
    (mfind 7 (Backend.new.insert_file 7 1 "/tmp/share/a.txt").file_map =
        some (some ()) ∧
      write_device (Backend.new.insert_file 7 1 "/tmp/share/a.txt") 7 5
        (.ok 5) = (.SUCCESS, 5)) ∧
    (mfind 9 (Backend.new.insert_file 7 1 "/tmp/share/a.txt").file_map =
        none ∧
      write_device (Backend.new.insert_file 7 1 "/tmp/share/a.txt") 9 5
        (.ok 5) = (.NO_SUCH_FILE, 0)) :=
  ⟨⟨by decide,
    ((C5_write_device (Backend.new.insert_file 7 1 "/tmp/share/a.txt") 7 5
      (.ok 5)).1 (by decide)).1.mpr rfl⟩,
   ⟨by decide,
    (C5_write_device (Backend.new.insert_file 7 1 "/tmp/share/a.txt") 9 5
      (.ok 5)).2 (Or.inr (by decide))⟩⟩

/-- C6: the session actor signals the disconnect-notify port exactly on
abrupt exits (stream read error, terminate signal from PDU processing, or
the command channel closing), never on a `Shutdown`-command exit. -/
theorem C6_disconnect_notify (hasPort : Bool) (trace : List SessionEvent)
    (k : ExitKind) (notified : Bool)
    (h : run_frame_processor hasPort trace = some (k, notified)) :
    (notified = true ↔ (hasPort = true ∧ k ≠ .shutdown)) := by
  induction trace with
  | nil => simp [run_frame_processor] at h
  | cons e rest ih =>
    cases e with
    | cmdShutdown =>
      simp [run_frame_processor] at h
      obtain ⟨rfl, rfl⟩ := h
      simp
    | cmdChannelClosed =>
      simp [run_frame_processor] at h
      obtain ⟨rfl, rfl⟩ := h
      simp
    | pduReadErr =>
      simp [run_frame_processor] at h
      obtain ⟨rfl, rfl⟩ := h
      simp
    | pduOk t =>
      cases t with
      | true =>
        simp [run_frame_processor] at h
        obtain ⟨rfl, rfl⟩ := h
        simp
      | false => exact ih (by simpa [run_frame_processor] using h)
    | cmdSendInput => exact ih (by simpa [run_frame_processor] using h)
    | cmdClipboardSet => exact ih (by simpa [run_frame_processor] using h)
    | cmdClipboardGet => exact ih (by simpa [run_frame_processor] using h)
    | backendMsg => exact ih (by simpa [run_frame_processor] using h)

/-- Witness for C6: a graceful shutdown does not signal, a read error does. -/
theorem C6_disconnect_notify_witness :
    (run_frame_processor true [.cmdSendInput, .cmdShutdown] =
        some (.shutdown, false) ∧
      (false = true ↔ (true = true ∧ ExitKind.shutdown ≠ .shutdown))) ∧
    (run_frame_processor true [.pduOk false, .pduReadErr] =
        some (.readError, true) ∧
      (true = true ↔ (true = true ∧ ExitKind.readError ≠ .shutdown))) :=
  ⟨⟨by decide,
      C6_disconnect_notify true [.cmdSendInput, .cmdShutdown]
        .shutdown false (by decide)⟩,
   ⟨by decide,
      C6_disconnect_notify true [.pduOk false, .pduReadErr]
        .readError true (by decide)⟩⟩

theorem firstUnknownKey_spec : ∀ (parts : List String) (t : String),
    firstUnknownKey parts = some t →
    t ∈ parts ∧ key_to_scancode t = none ∧
      parse_parts parts = .error ("Unknown key: " ++ t) := by
  intro parts
  induction parts with
  | nil => intro t h; simp [firstUnknownKey] at h
  | cons key rest ih =>
    intro t h
    cases hk : key_to_scancode key with
    | none =>
      rw [firstUnknownKey, hk] at h
      obtain rfl : key = t := by simpa using h
      exact ⟨List.mem_cons_self .., hk, by simp [parse_parts, hk]⟩
    | some p =>
      rw [firstUnknownKey, hk] at h
      obtain ⟨ht, htn, hp⟩ := ih t h
      exact ⟨List.mem_cons_of_mem _ ht, htn, by simp [parse_parts, hk, hp]⟩

theorem firstUnknownKey_isSome : ∀ (parts : List String) (t : String),
    t ∈ parts → key_to_scancode t = none →
    (firstUnknownKey parts).isSome := by
  intro parts
  induction parts with
  | nil => intro t h; simp at h
  | cons key rest ih =>
    intro t ht htn
    cases hk : key_to_scancode key with
    | none => simp [firstUnknownKey, hk]
    | some p =>
      rw [firstUnknownKey, hk]
      rcases List.mem_cons.mp ht with rfl | hmem
      · rw [hk] at htn; exact absurd htn (by simp)
      · exact ih t hmem htn

/-- C8: a key-press request whose `+`-delimited tokens include one absent
from the scancode table (the empty string included) replies
`invalid_request` naming the unknown key, and no input events are sent; in
particular `keyboard.press("")` is rejected this way. -/
theorem C8_unknown_key (keys : String)
    (h : ∃ t ∈ (splitOnChar '+' keys).map (fun s => strToLower (strTrim s)),
        key_to_scancode t = none) :
    (∃ t ∈ (splitOnChar '+' keys).map (fun s => strToLower (strTrim s)),
        key_to_scancode t = none ∧
          handle_press keys = .invalidRequest ("Unknown key: " ++ t)) ∧
    (∀ evs, handle_press keys ≠ .events evs) ∧
    handle_press "" = .invalidRequest ("Unknown key: " ++ "") := by
  obtain ⟨t, ht, htn⟩ := h
  obtain ⟨t0, ht0⟩ := Option.isSome_iff_exists.mp
    (firstUnknownKey_isSome _ t ht htn)
  obtain ⟨hmem, hnone, herr⟩ := firstUnknownKey_spec _ t0 ht0
  have hout : handle_press keys = .invalidRequest ("Unknown key: " ++ t0) := by
    rw [handle_press, parse_key_combination, herr]
  refine ⟨⟨t0, hmem, hnone, hout⟩, ?_, by decide⟩
  intro evs hev
  rw [hout] at hev
  exact PressOutcome.noConfusion hev

/-- Witness for C8: `keyboard.press("ctrl+boguskey")` is rejected and sends
nothing. -/
theorem C8_unknown_key_witness :
    (∃ t ∈ (splitOnChar '+' "ctrl+boguskey").map (fun s => strToLower (strTrim s)),
        key_to_scancode t = none ∧
          handle_press "ctrl+boguskey" =
            .invalidRequest ("Unknown key: " ++ t)) ∧
    handle_press "" = .invalidRequest ("Unknown key: " ++ "") :=
  ⟨(C8_unknown_key "ctrl+boguskey" ⟨"boguskey", by decide, by decide⟩).1,
   (C8_unknown_key "ctrl+boguskey" ⟨"boguskey", by decide, by decide⟩).2.2⟩

/-- C9: an error-marked format-data response (empty remote clipboard) is not
a failure: the pending read completes with `Ok(None)` and the clipboard
handler answers success with empty text, never `clipboard_error`. -/
theorem C9_empty_clipboard (st : ClipState) (data : List Nat)
    (h : st.pending = true) :
    (on_format_data_response st true data).2 = some none ∧
    clipboard_get_handle (.ok none) = .successText [] ∧
    ∀ c m, clipboard_get_handle (.ok none) ≠ .errorReply c m := by
  refine ⟨by simp [on_format_data_response, h], rfl, ?_⟩
  intro c m hc
  exact ClipReply.noConfusion hc

/-- Witness for C9 at a concrete pending state. -/
theorem C9_empty_clipboard_witness :
    (on_format_data_response ⟨none, true⟩ true []).2 = some none ∧
    clipboard_get_handle (.ok none) = .successText [] :=
  ⟨(C9_empty_clipboard ⟨none, true⟩ [] rfl).1,
   (C9_empty_clipboard ⟨none, true⟩ [] rfl).2.1⟩

/-- C3 counterexample: a non-error format-data response whose payload is
empty (fewer than 2 bytes) does **not** store the decoded text into
`remote_text`, nor deliver it to the pending read — the code completes the
read with `None` instead, contradicting the claim's unconditional
"otherwise" branch. -/
theorem C3_counterexample :
    ¬ ((on_format_data_response ⟨none, true⟩ false []).1.remote_text =
          some (trimTrailingNuls (decodeUtf16le [])) ∧
        (on_format_data_response ⟨none, true⟩ false []).2 =
          some (some (trimTrailingNuls (decodeUtf16le [])))) := by
  decide

/-- C3 (amended): with a pending read installed, an error-marked response
completes it with `None` and leaves `remote_text` unpopulated; a non-error
response of at least 2 bytes is decoded as UTF-16 LE pairs, trailing NULs
stripped, stored into `remote_text` and the same value delivered; a
non-error response shorter than 2 bytes completes the read with `None` and
leaves `remote_text` unpopulated; `pending_get` is consumed in every case. -/
theorem C3_format_data_response (st : ClipState) (is_error : Bool)
    (data : List Nat) (h : st.pending = true) :
    (on_format_data_response st is_error data).1.pending = false ∧
    (is_error = true →
      (on_format_data_response st is_error data).2 = some none ∧
      (on_format_data_response st is_error data).1.remote_text =
        st.remote_text) ∧
    (is_error = false → 2 ≤ data.length →
      (on_format_data_response st is_error data).1.remote_text =
        some (trimTrailingNuls (decodeUtf16le data)) ∧
      (on_format_data_response st is_error data).2 =
        some (some (trimTrailingNuls (decodeUtf16le data)))) ∧
    (is_error = false → data.length < 2 →
      (on_format_data_response st is_error data).2 = some none ∧
      (on_format_data_response st is_error data).1.remote_text =
        st.remote_text) := by
  refine ⟨?_, ?_, ?_, ?_⟩
  · cases is_error with
    | true => simp [on_format_data_response]
    | false =>
      by_cases hl : 2 ≤ data.length <;> simp [on_format_data_response, hl]
  · rintro rfl
    simp [on_format_data_response, h]
  · rintro rfl hl
    simp [on_format_data_response, hl, h]
  · rintro rfl hl
    simp [on_format_data_response, Nat.not_le.mpr hl, h]

/-- Witness for C3 (amended) at a concrete two-byte payload. -/
theorem C3_format_data_response_witness :
    (on_format_data_response ⟨none, true⟩ false [65, 0, 0, 0]).1.remote_text =
      some (trimTrailingNuls (decodeUtf16le [65, 0, 0, 0])) ∧
    (on_format_data_response ⟨none, true⟩ false [65, 0, 0, 0]).2 =
      some (some (trimTrailingNuls (decodeUtf16le [65, 0, 0, 0]))) :=
  (C3_format_data_response ⟨none, true⟩ false [65, 0, 0, 0] rfl).2.2.1
    rfl (by decide)

/-- C4: every registered pending entry of a `send_request` is removed before
the call returns — consumed by a matching response, removed on timeout, or
drained on close; on close every drained entry receives a failure with error
code `channel_closed`, and channel id and handshake are reset to `None`. -/
theorem C4_send_request (st : DvcState) (request_id : String) (tok : Nat)
    (outcome : SendOutcome) (st' : DvcState) (dels : List (Nat × DvcResp))
    (h : send_request st request_id tok outcome = some (st', dels)) :
    mfind request_id st'.pending = none ∧
    (∀ resp, outcome = .response resp → dels = [(tok, resp)]) ∧
    (outcome = .channelClosed →
      st'.pending = [] ∧ st'.channel_id = none ∧ st'.handshake = none ∧
      ∀ d ∈ dels, d.2.success = false ∧ d.2.errCode = some "channel_closed") := by
  rw [send_request] at h
  rcases hch : st.channel_id with - | cid
  · rw [hch] at h; exact absurd h (by simp)
  rw [hch] at h
  rcases htx : st.command_tx with - | -
  · rw [htx] at h; exact absurd h (by simp)
  rw [htx, if_pos rfl] at h
  cases outcome with
  | response resp =>
    simp only [dvc_process_response, mfind_minsert_self] at h
    obtain ⟨rfl, rfl⟩ := by simpa using h
    refine ⟨mfind_merase_self .., fun r hr => by
      obtain rfl : resp = r := by simpa using hr
      rfl, by simp⟩
  | timeout =>
    obtain ⟨rfl, rfl⟩ := by simpa using h
    exact ⟨mfind_merase_self .., by simp, by simp⟩
  | channelClosed =>
    simp only [dvc_close] at h
    obtain ⟨rfl, rfl⟩ := by simpa using h
    refine ⟨by simp [mfind], by simp, fun _ => ⟨rfl, rfl, rfl, ?_⟩⟩
    intro d hd
    obtain ⟨e, -, rfl⟩ := List.mem_map.mp hd
    exact ⟨rfl, rfl⟩

/-- Witness for C4: a close drains a registered entry with `channel_closed`. -/
theorem C4_send_request_witness :
    (send_request ⟨[], some (), some 3, true⟩ "ab12cd34" 7 .channelClosed =
        some (⟨[], none, none, true⟩, [(7, channelClosedResp)]) ∧
      mfind "ab12cd34" (⟨[], none, none, true⟩ : DvcState).pending = none) ∧
    ((⟨[], none, none, true⟩ : DvcState).channel_id = none ∧
      channelClosedResp.errCode = some "channel_closed") :=
  ⟨⟨by decide,
    (C4_send_request ⟨[], some (), some 3, true⟩ "ab12cd34" 7 .channelClosed
      ⟨[], none, none, true⟩ [(7, channelClosedResp)] (by decide)).1⟩,
   ⟨(C4_send_request ⟨[], some (), some 3, true⟩ "ab12cd34" 7 .channelClosed
      ⟨[], none, none, true⟩ [(7, channelClosedResp)] (by decide)).2.2 rfl |>.2.1,
    ((C4_send_request ⟨[], some (), some 3, true⟩ "ab12cd34" 7 .channelClosed
      ⟨[], none, none, true⟩ [(7, channelClosedResp)] (by decide)).2.2 rfl |>.2.2.2
      (7, channelClosedResp) (by decide)).2⟩⟩

/-- C1 (code bug): evaluated on the failing input — an open file id 4 bound
to `/tmp/share/a.txt`, which exists as a plain file — the wired handler
(`rdpdr_backend.rs`) removes the path from disk at the moment the
Disposition buffer arrives, removes it even when `delete_pending` is 0
(clearing is not honoured), and its close never removes anything; the
unwired `rdpdr/` revision present in the tree behaves exactly as the claim
and the spec describe (record the flag, delete only at close). -/
theorem C1_wired_disposition_divergence :
    (set_information_wired
        ⟨5, [(1, "/tmp/share")], [(4, some ())], [(4, "/tmp/share/a.txt")],
          [(4, 1)], []⟩
        [("/tmp/share/a.txt", false)] ⟨1, 4, .disposition 1⟩
        ⟨true, true⟩).2.1 = [] ∧
    (set_information_wired
        ⟨5, [(1, "/tmp/share")], [(4, some ())], [(4, "/tmp/share/a.txt")],
          [(4, 1)], []⟩
        [("/tmp/share/a.txt", false)] ⟨1, 4, .disposition 0⟩
        ⟨true, true⟩).2.1 = [] ∧
    (close_device_wired
        ⟨5, [(1, "/tmp/share")], [(4, some ())], [(4, "/tmp/share/a.txt")],
          [(4, 1)], []⟩
        [("/tmp/share/a.txt", false)] 4).2.1 =
      [("/tmp/share/a.txt", false)] ∧
    (set_information
        ⟨5, [(1, "/tmp/share")], [(4, some ())], [(4, "/tmp/share/a.txt")],
          [(4, 1)], [], []⟩
        [("/tmp/share/a.txt", false)] ⟨1, 4, .disposition 1⟩
        ⟨true, true⟩).2.1 = [("/tmp/share/a.txt", false)] ∧
    mfind 4 (set_information
        ⟨5, [(1, "/tmp/share")], [(4, some ())], [(4, "/tmp/share/a.txt")],
          [(4, 1)], [], []⟩
        [("/tmp/share/a.txt", false)] ⟨1, 4, .disposition 1⟩
        ⟨true, true⟩).1.delete_on_close = some true ∧
    mfind "/tmp/share/a.txt"
      (close_device
        (set_information
          ⟨5, [(1, "/tmp/share")], [(4, some ())], [(4, "/tmp/share/a.txt")],
            [(4, 1)], [], []⟩
          [("/tmp/share/a.txt", false)] ⟨1, 4, .disposition 1⟩
          ⟨true, true⟩).1
        [("/tmp/share/a.txt", false)] 4).2.1 = none := by
  decide

/-- C2: every path a successful create registers for a file id is prefixed
by the base path of the create's device; a successful rename rebinds the
file id to the device base joined with the normalised new name (backslashes
to slashes, leading slashes trimmed), so the bound path is still prefixed by
the device base even when the server-supplied name points outside it. -/
theorem C2_base_path_prefixed (b : Backend) (req : CreateReq)
    (orc : CreateOracle) (base : String)
    (hbase : mfind req.device_id b.drive_paths = some base) :
    ((create_drive b req orc).status = .SUCCESS →
      ∃ pth,
        mfind (create_drive b req orc).file_id
            (create_drive b req orc).backend.file_path_map = some pth ∧
        pathStartsWith base pth) ∧
    (∀ (fs : Fs) (sorc : SetOracle) (fid : Nat) (name : String),
      (set_information b fs ⟨req.device_id, fid, .rename name⟩ sorc).2.2 =
          .SUCCESS →
      mfind fid
          (set_information b fs ⟨req.device_id, fid, .rename name⟩
            sorc).1.file_path_map =
        some (joinPath base (normalizeRdpPath name)) ∧
      pathStartsWith base (joinPath base (normalizeRdpPath name))) := by
  constructor
  · intro hs
    simp only [create_drive, Backend.next_file_id, Backend.get_base_path,
      hbase] at hs ⊢
    set pth := if normalizeRdpPath req.path = "" then base
      else joinPath base (normalizeRdpPath req.path) with hpth
    have hpre : pathStartsWith base pth := by
      rw [hpth]
      split
      · exact pathStartsWith_refl base
      · exact pathStartsWith_joinPath ..
    cases horc : orc.meta <;> simp only [horc] at hs ⊢ <;>
      split_ifs at hs ⊢ <;>
      first
      | exact NtStatus.noConfusion hs
      | exact ⟨pth, mfind_minsert_self .., hpre⟩
  · intro fs sorc fid name hs
    simp only [set_information, Backend.get_base_path, hbase] at hs ⊢
    rcases hfp : mfind fid b.file_path_map with - | fp <;>
      simp only [hfp] at hs ⊢
    · exact NtStatus.noConfusion hs
    · rcases hren : fs.rename fp
          (joinPath base (normalizeRdpPath name)) sorc.renameOsOk with - | fs2 <;>
        simp only [hren] at hs ⊢
      · exact NtStatus.noConfusion hs
      · exact ⟨mfind_minsert_self .., pathStartsWith_joinPath ..⟩

/-- Witness for C2: create a file under device 1, then rename it to a
server path with backslashes and leading slashes. -/
theorem C2_base_path_prefixed_witness :
    ((create_drive ⟨0, [(1, "/tmp/share")], [], [(0, "/tmp/share/a.txt")], [], [], []⟩
        ⟨1, "a.txt", .FILE_OPEN_IF, false, false⟩
        ⟨.err, true, true⟩).status = .SUCCESS ∧
      (∃ pth,
        mfind (create_drive
            ⟨0, [(1, "/tmp/share")], [], [(0, "/tmp/share/a.txt")], [], [], []⟩
            ⟨1, "a.txt", .FILE_OPEN_IF, false, false⟩
            ⟨.err, true, true⟩).file_id
          (create_drive
            ⟨0, [(1, "/tmp/share")], [], [(0, "/tmp/share/a.txt")], [], [], []⟩
            ⟨1, "a.txt", .FILE_OPEN_IF, false, false⟩
            ⟨.err, true, true⟩).backend.file_path_map = some pth ∧
        pathStartsWith "/tmp/share" pth)) ∧
    pathStartsWith "/tmp/share"
      (joinPath "/tmp/share" (normalizeRdpPath "\\..\\..\\etc\\passwd")) := by
  have h := C2_base_path_prefixed
    ⟨0, [(1, "/tmp/share")], [], [(0, "/tmp/share/a.txt")], [], [], []⟩
    ⟨1, "a.txt", .FILE_OPEN_IF, false, false⟩ ⟨.err, true, true⟩
    "/tmp/share" (by decide)
  refine ⟨⟨by decide, h.1 (by decide)⟩, ?_⟩
  exact (h.2 [("/tmp/share/a.txt", false)] ⟨true, true⟩ 0
    "\\..\\..\\etc\\passwd" (by decide)).2

theorem create_drive_consumes_id (b : Backend) (req : CreateReq)
    (orc : CreateOracle) :
    (create_drive b req orc).file_id = b.file_id ∧
    (create_drive b req orc).backend.file_id = (b.file_id + 1) % 2 ^ 32 := by
  simp only [create_drive, Backend.next_file_id, Backend.get_base_path]
  cases hb : mfind req.device_id b.drive_paths <;> simp only [hb]
  · constructor <;> trivial
  · cases horc : orc.meta <;> simp only [horc] <;> split_ifs <;>
      (constructor <;> trivial)

theorem runCreates_ids (l : List (CreateReq × CreateOracle)) :
    ∀ b : Backend, b.file_id + l.length ≤ 2 ^ 32 →
      (runCreates b l).2.1 = List.range' b.file_id l.length := by
  induction l with
  | nil => intro b _; rfl
  | cons hd tl ih =>
    intro b h
    obtain ⟨req, orc⟩ := hd
    have hc := (create_drive_consumes_id b req orc).2
    have hid := (create_drive_consumes_id b req orc).1
    simp only [runCreates, hid]
    rcases Nat.lt_or_ge (b.file_id + 1) (2 ^ 32) with hlt | hge
    · have hmod : (b.file_id + 1) % 2 ^ 32 = b.file_id + 1 :=
        Nat.mod_eq_of_lt hlt
      have hrec := ih (create_drive b req orc).backend
        (by rw [hc, hmod]; simp only [List.length_cons] at h; omega)
      rw [hrec, hc, hmod]
      simp [List.length_cons, List.range'_succ]
    · have hlen0 : tl = [] := List.length_eq_zero.mp (by
        simp only [List.length_cons] at h; omega)
      subst hlen0
      simp [runCreates, List.range'_succ, List.range']

theorem runCreates_inserted_sublist (l : List (CreateReq × CreateOracle)) :
    ∀ b : Backend, List.Sublist (runCreates b l).2.2 (runCreates b l).2.1 := by
  induction l with
  | nil => intro b; exact List.Sublist.refl []
  | cons hd tl ih =>
    intro b
    obtain ⟨req, orc⟩ := hd
    simp only [runCreates]
    split_ifs
    · exact (ih _).cons₂ _
    · exact (ih _).cons _

/-- C10: every `ServerCreateDriveRequest` consumes exactly one fresh value
of the file-id counter (even on failure), so the id carried in any create
response is never assigned to a later create, and the keys inserted into
`file_map` / `file_path_map` / `file_device_map` are pairwise distinct
across any backend lifetime of at most `2^32` creates. -/
theorem C10_file_id_freshness (l : List (CreateReq × CreateOracle))
    (hlen : l.length ≤ 2 ^ 32) :
    (∀ (b : Backend) (req : CreateReq) (orc : CreateOracle),
      (create_drive b req orc).file_id = b.file_id ∧
      (create_drive b req orc).backend.file_id = (b.file_id + 1) % 2 ^ 32) ∧
    (runCreates Backend.new l).2.1 = List.range l.length ∧
    (runCreates Backend.new l).2.1.Nodup ∧
    (runCreates Backend.new l).2.2.Nodup := by
  have hids : (runCreates Backend.new l).2.1 = List.range l.length := by
    have h0 : Backend.new.file_id = 0 := rfl
    rw [runCreates_ids l Backend.new (by rw [h0]; simpa using hlen), h0]
    exact (List.range_eq_range' _).symm
  have hnodup : (runCreates Backend.new l).2.1.Nodup := by
    rw [hids]; exact List.nodup_range _
  exact ⟨create_drive_consumes_id, hids, hnodup,
    (hnodup.sublist (runCreates_inserted_sublist l Backend.new))⟩

/-- Witness for C10 on a two-create trace (one success, one failure on an
unregistered device). -/
theorem C10_file_id_freshness_witness :
    (([(⟨1, "a.txt", CreateDisposition.FILE_OPEN_IF, false, false⟩,
          ⟨MetaResult.err, true, true⟩),
        (⟨9, "b.txt", CreateDisposition.FILE_OPEN_IF, false, false⟩,
          ⟨MetaResult.err, true, true⟩)] :
        List (CreateReq × CreateOracle)).length ≤ 2 ^ 32) ∧
    (runCreates Backend.new
      ([(⟨1, "a.txt", CreateDisposition.FILE_OPEN_IF, false, false⟩,
          ⟨MetaResult.err, true, true⟩),
        (⟨9, "b.txt", CreateDisposition.FILE_OPEN_IF, false, false⟩,
          ⟨MetaResult.err, true, true⟩)] :
        List (CreateReq × CreateOracle))).2.1 = List.range 2 :=
  ⟨by decide,
    (C10_file_id_freshness _ (by decide)).2.1⟩

end AgentRdp
